import Mathlib

/-
Verification of the nash-mcp Task Registry subsystem.

This file shallowly embeds the Task Registry of nash-mcp
(src/nash_mcp/nash_tasks/nash_tasks.py) together with the result
rendering of the two runners (src/nash_mcp/execute/execute_command.py and
src/nash_mcp/execute/execute_python.py).

Modelling conventions:
- The tasks file at MAC_TASKS_PATH is modelled by `StoreFile`: either the
  file is absent, or it exists but `json.load` raises a `JSONDecodeError`
  whose `str(e)` is the carried message, or it parses to a mapping from
  task name to task record.  A parsed JSON object is modelled as an
  association list in insertion order with unique keys, matching a
  Python `dict`.
- A script entry is a loosely-shaped dict; every field is optional,
  matching the `script.get(...)` accesses in the source.
- Mutating operations return the message string together with the new
  state of the tasks file.  File I/O is assumed to succeed; the generic
  `except Exception` handlers around disk writes are outside the model.
- The two runners execute subprocesses; their deterministic part is how
  they render a completed process (return code, captured stdout and
  stderr) to the reported string.  That rendering is embedded as
  `execute_command_render` / `execute_python_render` over an
  `ExecutionResult`.  `execute_task_script` is parameterised by the two
  runners (`Runners`) so that theorems can observe exactly which payload
  is dispatched to which runner.
-/

/-- One script entry of a task: a Python dict with the (all optional) keys
`name`, `type`, `code`, `description`, read via `script.get(...)` in the
source.  Missing keys are modelled as `none`. -/
structure Script where
  name : Option String
  type : Option String
  code : Option String
  description : Option String
deriving DecidableEq

/-- One task record: the dict stored under a task name, with key `prompt`
(read back via `task_data.get("prompt", "No prompt available")`) and the
optional key `scripts`. -/
structure TaskData where
  prompt : Option String
  scripts : Option (List Script)
deriving DecidableEq

/-- The state of the tasks file at `MAC_TASKS_PATH`: absent, present but
unparsable (`json.load` raises `JSONDecodeError`, with `str(e)` carried as
the message), or parsed to a task mapping (a Python dict, modelled as an
association list in insertion order with unique keys). -/
inductive StoreFile where
  | absent : StoreFile
  | corrupt : String → StoreFile
  | valid : List (String × TaskData) → StoreFile
deriving DecidableEq

/-- A Python value that may appear in a script argument list.  The model
covers strings and integers, which is enough to express `str(arg)` and
`repr(args)` as used by `execute_task_script`. -/
inductive PyVal where
  | str : String → PyVal
  | int : Int → PyVal
deriving DecidableEq

/-- Python `str()` on an argument value. -/
def pyStr : PyVal → String
  | .str s => s
  | .int n => toString n

/-- Python `str.lower()` (ASCII case folding; scripts with non-ASCII type
tags are outside the model). -/
def pyLower (s : String) : String := ⟨s.data.map Char.toLower⟩

/-- Truthiness of Python `s.strip()`: true exactly when `s` has a
character that is not whitespace. -/
def stripTruthy (s : String) : Bool := s.data.any (fun c => !c.isWhitespace)

/-- Escaping of one character inside a Python string repr, for the chosen
quote character.  Covers backslash, the quote itself, and the common
control characters; other printable characters are kept verbatim
(arguments with further non-printable characters are outside the model). -/
def pyEscapeChar (quote : Char) (c : Char) : String :=
  if c = '\\' then "\\\\"
  else if c = quote then "\\" ++ String.singleton quote
  else if c = '\n' then "\\n"
  else if c = '\t' then "\\t"
  else if c = '\x0d' then "\\r"
  else String.singleton c

/-- Python `repr()` of a string: single-quoted, except that a string
containing a single quote and no double quote is double-quoted. -/
def pyReprStr (s : String) : String :=
  let q : Char :=
    if s.data.contains (Char.ofNat 39) && !(s.data.contains (Char.ofNat 34)) then Char.ofNat 34
    else Char.ofNat 39
  String.singleton q ++ String.join (s.data.map (pyEscapeChar q)) ++ String.singleton q

/-- Python `repr()` of one argument value. -/
def pyReprVal : PyVal → String
  | .str s => pyReprStr s
  | .int n => toString n

/-- Python `repr()` of an argument list. -/
def pyReprList (l : List PyVal) : String :=
  "[" ++ String.intercalate ", " (l.map pyReprVal) ++ "]"

/-- Lookup of `tasks[task_name]` in the parsed store: the first entry with
the requested key (a Python dict has at most one). -/
def lookupTask (ts : List (String × TaskData)) (n : String) : Option TaskData :=
  (ts.find? (fun kv => kv.1 == n)).map Prod.snd

/-- Python `name in tasks`. -/
def hasTask (ts : List (String × TaskData)) (n : String) : Bool :=
  ts.any (fun kv => kv.1 == n)

/-- `tasks[name] = task_data` on a Python dict: replace the value in place
at the (unique) existing entry with that key, otherwise append the new
entry at the end (dicts keep insertion order). -/
def updateTasks : List (String × TaskData) → String → TaskData → List (String × TaskData)
  | [], n, v => [(n, v)]
  | kv :: rest, n, v => if kv.1 == n then (n, v) :: rest else kv :: updateTasks rest n v

/-- `del tasks[name]` on a Python dict: drop the entry with that key. -/
def removeTask (ts : List (String × TaskData)) (n : String) : List (String × TaskData) :=
  ts.filter (fun kv => kv.1 != n)

/-- The script-finding loop of `execute_task_script`: the first script with
`script.get("name") == script_name` (a script with no `name` key never
matches, since `None` is not equal to a string). -/
def findScript (ss : List Script) (n : String) : Option Script :=
  ss.find? (fun s => s.name == some n)

/-- The outcome of one completed runner subprocess: `returncode`, captured
`stdout` and captured `stderr` (the fields of `subprocess`'s completed
process used by the source). -/
structure ExecutionResult where
  returncode : Int
  stdout : String
  stderr : String
deriving DecidableEq

/-- Rendering of a completed shell command by `execute_command`
(execute_command.py, lines 71-79): stdout when the exit code is zero and
stdout has non-whitespace content (`if stdout.strip()`), a fixed marker
when it is zero and stdout is empty or whitespace, and otherwise a message
carrying the exit code and both captured streams. -/
def execute_command_render (r : ExecutionResult) : String :=
  if r.returncode = 0 then
    if stripTruthy r.stdout then r.stdout else "Command executed (no output)."
  else
    "Command failed (exit code " ++ toString r.returncode ++ ").\nSTDOUT:\n" ++ r.stdout ++ "\nSTDERR:\n" ++ r.stderr

/-- Rendering of a completed code run by `execute_python`
(execute_python.py, lines 136-141): stdout when the return code is zero
and stdout is non-empty (`if result.stdout`), a fixed marker when it is
zero and stdout is empty, and otherwise a message carrying the return code
and the captured stderr (stdout is not included on this path). -/
def execute_python_render (r : ExecutionResult) : String :=
  if r.returncode = 0 then
    if r.stdout != "" then r.stdout else "Code executed successfully (no output)"
  else
    "Error (return code " ++ toString r.returncode ++ "):\n" ++ r.stderr

/-- The two runners `execute_task_script` dispatches to, abstracted as
functions from the dispatched payload (a command line, or a Python source
text) to the reported string. -/
structure Runners where
  execute_python : String → String
  execute_command : String → String

/-- The task record built by `save_nash_task` (lines 131-137): always a
`prompt` key; a `scripts` key only when the passed list is truthy
(present and non-empty). -/
def mkTaskData (task_prompt : String) (scripts : Option (List Script)) : TaskData :=
  { prompt := some task_prompt
  , scripts := match scripts with
      | none => none
      | some l => if l.isEmpty then none else some l }

/-- `save_nash_task` (nash_tasks.py, lines 111-160): load the store,
treating an absent or unparsable file as the empty dict, insert or replace
the task record under `name`, rewrite the whole file, and report the saved
script count (`len(scripts) if scripts else 0`). -/
def save_nash_task (name : String) (task_prompt : String) (scripts : Option (List Script)) (st : StoreFile) : String × StoreFile :=
  let tasks : List (String × TaskData) :=
    match st with
    | .absent => []
    | .corrupt _ => []
    | .valid ts => ts
  let newTasks := updateTasks tasks name (mkTaskData task_prompt scripts)
  let script_count : Nat := match scripts with | none => 0 | some l => l.length
  ("Task '" ++ name ++ "' saved successfully with " ++ toString script_count ++ " scripts."
  , .valid newTasks)

/-- The per-script line of `list_nash_tasks` (lines 211-214). -/
def scriptSummary (s : Script) : String :=
  "\n  - " ++ s.name.getD "unnamed" ++ " (" ++ s.type.getD "unknown" ++ ")"

/-- The per-task section of `list_nash_tasks` (lines 202-218). -/
def taskSummary (kv : String × TaskData) : String :=
  let scripts := kv.2.scripts.getD []
  "- " ++ kv.1
    ++ (if scripts.length > 0 then
          " (" ++ toString scripts.length ++ " script" ++ (if scripts.length > 1 then "s" else "") ++ ")"
            ++ "\n  Scripts:" ++ String.join (scripts.map scriptSummary)
        else " (no scripts)")
    ++ "\n\n"

/-- `list_nash_tasks` (nash_tasks.py, lines 191-223).  An unparsable file
raises `JSONDecodeError`, which this function catches only with its
generic `except Exception` handler. -/
def list_nash_tasks (st : StoreFile) : String :=
  match st with
  | .absent => "No tasks file found. Use save_nash_task to create tasks."
  | .corrupt m => "Error listing tasks: " ++ m
  | .valid tasks =>
    if tasks.isEmpty then "No tasks available."
    else "Available tasks:\n\n" ++ String.join (tasks.map taskSummary)
          ++ "Use run_nash_task(task_name) to view complete task details."

/-- Sequential rendering of a task's scripts with 1-based indices, the
`for i, script in enumerate(scripts, 1)` loops of `run_nash_task` and
`view_task_details`. -/
def renderBlocks (f : Nat → Script → String) : Nat → List Script → String
  | _, [] => ""
  | i, s :: rest => f i s ++ renderBlocks f (i + 1) rest

/-- The per-script block of `run_nash_task` (lines 296-303). -/
def scriptInfoBlock (task_name : String) (i : Nat) (s : Script) : String :=
  let sn := s.name.getD ("Script " ++ toString i)
  let ty := s.type.getD "unknown"
  let ds := s.description.getD "No description provided"
  "\n" ++ toString i ++ ". " ++ sn ++ " (" ++ ty ++ ")\n"
    ++ "   Description: " ++ ds ++ "\n"
    ++ "   Execute with: execute_task_script('" ++ task_name ++ "', '" ++ sn ++ "', args=[])\n"

/-- `run_nash_task` (nash_tasks.py, lines 270-318). -/
def run_nash_task (task_name : String) (st : StoreFile) : String :=
  match st with
  | .absent => "No tasks file found. Use save_nash_task to create tasks."
  | .corrupt m => "Error: Tasks file contains invalid JSON. " ++ m
  | .valid tasks =>
    match lookupTask tasks task_name with
    | none => "Task '" ++ task_name ++ "' not found. Use list_nash_tasks to see available tasks."
    | some td =>
      let scripts := td.scripts.getD []
      "TASK: " ++ task_name ++ "\n\nPROMPT:\n" ++ td.prompt.getD "No prompt available" ++ "\n"
        ++ (if scripts.isEmpty then "\nThis task has no executable scripts."
            else "\nAVAILABLE SCRIPTS:\n" ++ renderBlocks (scriptInfoBlock task_name) 1 scripts)

/-- The per-script block of `view_task_details` (lines 550-561). -/
def scriptDetailBlock (task_name : String) (i : Nat) (s : Script) : String :=
  let sn := s.name.getD ("Script " ++ toString i)
  let ty := s.type.getD "unknown"
  let ds := s.description.getD "No description provided"
  let cd := s.code.getD "No code available"
  "\n" ++ toString i ++ ". " ++ sn ++ " (" ++ ty ++ ")\n"
    ++ "   Description: " ++ ds ++ "\n"
    ++ "   Code:\n```" ++ ty ++ "\n" ++ cd ++ "\n```\n"
    ++ "   Execute with: execute_task_script('" ++ task_name ++ "', '" ++ sn ++ "', args=[])\n"

/-- `view_task_details` (nash_tasks.py, lines 525-574). -/
def view_task_details (task_name : String) (st : StoreFile) : String :=
  match st with
  | .absent => "No tasks file found. Use save_nash_task to create tasks first."
  | .corrupt m => "Error: Tasks file contains invalid JSON. " ++ m
  | .valid tasks =>
    match lookupTask tasks task_name with
    | none => "Task '" ++ task_name ++ "' not found. Use list_nash_tasks to see available tasks."
    | some td =>
      let scripts := td.scripts.getD []
      "TASK: " ++ task_name ++ "\n\nPROMPT:\n" ++ td.prompt.getD "No prompt available" ++ "\n"
        ++ (if scripts.isEmpty then "\nThis task has no executable scripts."
            else "\nSCRIPTS:\n" ++ renderBlocks (scriptDetailBlock task_name) 1 scripts)

/-- The tail of `execute_task_script` once the script dict is found
(lines 432-475): read `type` (lower-cased, defaulting to the empty
string) and `code`, reject empty code, default the argument list
(`args = args or []`), then dispatch by type: `python` prepends the
literal `task_args` assignment and hands the combined source to the code
runner; `command` appends the stringified, space-joined arguments to the
command line and hands it to the shell runner; any other type is reported
as unsupported. -/
def dispatchScript (R : Runners) (script_name : String) (sc : Script) (args : Option (List PyVal)) : String :=
  let script_type := pyLower (sc.type.getD "")
  let script_code := sc.code.getD ""
  if script_code = "" then
    "Script '" ++ script_name ++ "' contains no code to execute."
  else
    let a : List PyVal := args.getD []
    if script_type = "python" then
      R.execute_python ("task_args = " ++ pyReprList a ++ "\n\n" ++ script_code)
    else if script_type = "command" then
      R.execute_command
        (if a.isEmpty then script_code
         else script_code ++ " " ++ String.intercalate " " (a.map pyStr))
    else
      "Unknown script type '" ++ script_type ++ "'. Supported types are 'python' and 'command'."

/-- `execute_task_script` (nash_tasks.py, lines 390-483), parameterised by
the two runners it may dispatch to. -/
def execute_task_script (R : Runners) (task_name script_name : String) (args : Option (List PyVal)) (st : StoreFile) : String :=
  match st with
  | .absent => "No tasks file found. Use save_nash_task to create tasks first."
  | .corrupt m => "Error: Tasks file contains invalid JSON. " ++ m
  | .valid tasks =>
    match lookupTask tasks task_name with
    | none => "Task '" ++ task_name ++ "' not found. Use list_nash_tasks to see available tasks."
    | some td =>
      let scripts := td.scripts.getD []
      if scripts.isEmpty then "Task '" ++ task_name ++ "' does not contain any scripts."
      else
        match findScript scripts script_name with
        | none =>
          "Script '" ++ script_name ++ "' not found in task '" ++ task_name ++ "'. Available scripts: "
            ++ String.intercalate ", " (scripts.map (fun s => s.name.getD "unnamed"))
        | some sc => dispatchScript R script_name sc args

/-- `delete_nash_task` (nash_tasks.py, lines 611-631).  An unparsable file
raises `JSONDecodeError`, caught only by the generic handler. -/
def delete_nash_task (name : String) (st : StoreFile) : String × StoreFile :=
  match st with
  | .absent => ("No tasks file found. Nothing to delete.", .absent)
  | .corrupt m => ("Error deleting task: " ++ m, .corrupt m)
  | .valid tasks =>
    if hasTask tasks name then
      ("Task '" ++ name ++ "' deleted successfully.", .valid (removeTask tasks name))
    else
      ("Task '" ++ name ++ "' not found. Use list_nash_tasks() to see available tasks.", .valid tasks)

/-- A script record with all four keys present, the "well-formed Script
records" of the round-trip property. -/
def wellFormedScript (s : Script) : Bool :=
  s.name.isSome && s.type.isSome && s.code.isSome && s.description.isSome

/-- The four stored fields of one script, in the order they appear inside
its `view_task_details` block: name, type, description, code. -/
def scriptFields (s : Script) : List String :=
  [s.name.getD "", s.type.getD "", s.description.getD "", s.code.getD ""]

/-- The stored fields of a whole script list, scripts in list order. -/
def scriptsFields (ss : List Script) : List String :=
  (ss.map scriptFields).flatten

/-
Observation predicates used by the theorems: substring occurrence and
ordered occurrence of several substrings.
-/

/-- `needle` occurs contiguously inside `hay`. -/
def strHasSub (hay needle : String) : Prop := needle.data <:+: hay.data

instance (hay needle : String) : Decidable (strHasSub hay needle) :=
  inferInstanceAs (Decidable (needle.data <:+: hay.data))

/-- The strings of the list occur inside `hay`, in the given order and
without overlapping. -/
def containsInOrder (hay : String) : List String → Prop
  | [] => True
  | x :: rest => ∃ p q, hay = p ++ (x ++ q) ∧ containsInOrder q rest

theorem strHasSub_of_parts (hay p x q : String) (h : hay = p ++ (x ++ q)) :
    strHasSub hay x := by
  subst h
  unfold strHasSub
  simp [String.data_append, List.append_assoc]

theorem strHasSub_trans (hay mid n : String) (h1 : strHasSub hay mid)
    (h2 : strHasSub mid n) : strHasSub hay n := h2.trans h1

theorem containsInOrder_append_left (a t : String) (l : List String)
    (h : containsInOrder t l) : containsInOrder (a ++ t) l := by
  cases l with
  | nil => trivial
  | cons x r =>
    obtain ⟨p, q, heq, hrest⟩ := h
    exact ⟨a ++ p, q, by rw [heq, String.append_assoc], hrest⟩

/-
General lemmas about the store primitives.
-/

theorem lookupTask_updateTasks (ts : List (String × TaskData)) (n : String) (v : TaskData) :
    lookupTask (updateTasks ts n v) n = some v := by
  induction ts with
  | nil => simp [updateTasks, lookupTask, List.find?]
  | cons kv rest ih =>
    cases hk : (kv.1 == n)
    · simpa [updateTasks, lookupTask, List.find?, hk] using ih
    · simp [updateTasks, lookupTask, List.find?, hk]

theorem lookupTask_removeTask (ts : List (String × TaskData)) (n : String) :
    lookupTask (removeTask ts n) n = none := by
  unfold lookupTask removeTask
  have h : (ts.filter fun kv => kv.1 != n).find? (fun kv => kv.1 == n) = none := by
    rw [List.find?_eq_none]
    intro x hx
    have hmem := List.mem_filter.mp hx
    simpa using hmem.2
  simp [h]

theorem hasTask_removeTask (ts : List (String × TaskData)) (n : String) :
    hasTask (removeTask ts n) n = false := by
  unfold hasTask removeTask
  rw [List.any_eq_false]
  intro x hx
  have hmem := List.mem_filter.mp hx
  simpa using hmem.2

theorem hasTask_of_lookupTask (ts : List (String × TaskData)) (n : String) (td : TaskData)
    (h : lookupTask ts n = some td) : hasTask ts n = true := by
  unfold lookupTask at h
  cases hf : ts.find? (fun kv => kv.1 == n) with
  | none => rw [hf] at h; simp at h
  | some kv =>
    have hmem := List.mem_of_find?_eq_some hf
    have hp := List.find?_some hf
    rw [hasTask, List.any_eq_true]
    exact ⟨kv, hmem, hp⟩

theorem mem_keys_updateTasks (ts : List (String × TaskData)) (n : String) (v : TaskData)
    (x : String) (h : x ∈ (updateTasks ts n v).map Prod.fst) :
    x ∈ ts.map Prod.fst ∨ x = n := by
  induction ts with
  | nil => simp [updateTasks] at h; exact Or.inr h
  | cons kv rest ih =>
    cases hk : (kv.1 == n)
    · rw [updateTasks, hk] at h
      simp only [cond_false, Bool.false_eq_true, if_false, List.map_cons, List.mem_cons] at h
      rcases h with h | h
      · exact Or.inl (by simp [h])
      · rcases ih h with h' | h'
        · exact Or.inl (List.mem_cons_of_mem _ h')
        · exact Or.inr h'
    · rw [updateTasks, hk] at h
      simp only [if_true, List.map_cons, List.mem_cons] at h
      rcases h with h | h
      · exact Or.inr h
      · exact Or.inl (List.mem_cons_of_mem _ h)

theorem updateTasks_cons_ne (kv : String × TaskData) (rest : List (String × TaskData))
    (n : String) (v : TaskData) (hk : (kv.1 == n) = false) :
    updateTasks (kv :: rest) n v = kv :: updateTasks rest n v := by
  simp [updateTasks, hk]

theorem updateTasks_cons_eq (kv : String × TaskData) (rest : List (String × TaskData))
    (n : String) (v : TaskData) (hk : (kv.1 == n) = true) :
    updateTasks (kv :: rest) n v = (n, v) :: rest := by
  simp [updateTasks, hk]

theorem nodup_keys_updateTasks (ts : List (String × TaskData)) (n : String) (v : TaskData)
    (hnd : (ts.map Prod.fst).Nodup) : ((updateTasks ts n v).map Prod.fst).Nodup := by
  induction ts with
  | nil => simp [updateTasks]
  | cons kv rest ih =>
    rw [List.map_cons, List.nodup_cons] at hnd
    cases hk : (kv.1 == n)
    · have hkne : kv.1 ≠ n := by simpa using hk
      rw [updateTasks_cons_ne kv rest n v hk, List.map_cons, List.nodup_cons]
      refine ⟨?_, ih hnd.2⟩
      intro hmem
      rcases mem_keys_updateTasks rest n v kv.1 hmem with h' | h'
      · exact hnd.1 h'
      · exact hkne h'
    · have hkeq : kv.1 = n := by simpa using hk
      rw [updateTasks_cons_eq kv rest n v hk, List.map_cons, List.nodup_cons]
      exact ⟨by rw [← hkeq]; exact hnd.1, hnd.2⟩

theorem count_keys_updateTasks (ts : List (String × TaskData)) (n : String) (v : TaskData)
    (hnd : (ts.map Prod.fst).Nodup) : ((updateTasks ts n v).map Prod.fst).count n = 1 := by
  induction ts with
  | nil => simp [updateTasks]
  | cons kv rest ih =>
    rw [List.map_cons, List.nodup_cons] at hnd
    cases hk : (kv.1 == n)
    · have hkne : kv.1 ≠ n := by simpa using hk
      rw [updateTasks_cons_ne kv rest n v hk, List.map_cons]
      simp [List.count_cons, hkne, Ne.symm hkne, ih hnd.2]
    · have hkeq : kv.1 = n := by simpa using hk
      rw [updateTasks_cons_eq kv rest n v hk, List.map_cons]
      have hzero : (rest.map Prod.fst).count n = 0 :=
        List.count_eq_zero_of_not_mem (by rw [← hkeq]; exact hnd.1)
      simp [List.count_cons, hzero]

/-
Reduction lemmas for script dispatch.
-/

theorem execute_task_script_found (R : Runners) (tn sn : String) (args : Option (List PyVal))
    (ts : List (String × TaskData)) (td : TaskData) (ss : List Script) (sc : Script)
    (hl : lookupTask ts tn = some td) (hs : td.scripts = some ss)
    (hf : findScript ss sn = some sc) :
    execute_task_script R tn sn args (StoreFile.valid ts) = dispatchScript R sn sc args := by
  have hne : ss.isEmpty = false := by
    cases ss
    · simp [findScript, List.find?] at hf
    · rfl
  simp [execute_task_script, hl, hs, hne, hf]

theorem dispatchScript_python (R : Runners) (sn : String) (sc : Script)
    (args : Option (List PyVal)) (t c : String) (ht : sc.type = some t)
    (htl : pyLower t = "python") (hc : sc.code = some c) (hcne : c ≠ "") :
    dispatchScript R sn sc args
      = R.execute_python ("task_args = " ++ pyReprList (args.getD []) ++ "\n\n" ++ c) := by
  simp [dispatchScript, ht, htl, hc, hcne]

theorem dispatchScript_command (R : Runners) (sn : String) (sc : Script)
    (args : Option (List PyVal)) (t c : String) (ht : sc.type = some t)
    (htl : pyLower t = "command") (hc : sc.code = some c) (hcne : c ≠ "") :
    dispatchScript R sn sc args
      = R.execute_command
          (if (args.getD []).isEmpty then c
           else c ++ " " ++ String.intercalate " " ((args.getD []).map pyStr)) := by
  simp [dispatchScript, ht, htl, hc, hcne]

/-
The claims.
-/

/-- C1: when the tasks file exists but holds invalid JSON, `save_nash_task`
treats the content as an empty store and silently proceeds — the rewritten
file holds exactly the new task and the call reports success — while each
read operation (`list_nash_tasks`, `run_nash_task`, `view_task_details`,
`execute_task_script`) returns its corrupt-store error message instead of
task data. -/
theorem c1_corrupt_store_policy (m n p : String) (s : List Script) :
    (save_nash_task n p (some s) (StoreFile.corrupt m)).2
        = StoreFile.valid [(n, mkTaskData p (some s))]
    ∧ (save_nash_task n p (some s) (StoreFile.corrupt m)).1
        = "Task '" ++ n ++ "' saved successfully with " ++ toString s.length ++ " scripts."
    ∧ list_nash_tasks (StoreFile.corrupt m) = "Error listing tasks: " ++ m
    ∧ run_nash_task n (StoreFile.corrupt m) = "Error: Tasks file contains invalid JSON. " ++ m
    ∧ view_task_details n (StoreFile.corrupt m) = "Error: Tasks file contains invalid JSON. " ++ m
    ∧ ∀ (R : Runners) (sn : String) (args : Option (List PyVal)),
        execute_task_script R n sn args (StoreFile.corrupt m)
          = "Error: Tasks file contains invalid JSON. " ++ m := by
  exact ⟨rfl, rfl, rfl, rfl, rfl, fun R sn args => rfl⟩

/-- C2, counterexample: reports are not always "stdout and stderr on
failure" — on a failed python run the report omits the captured stdout
entirely.  Concretely, for return code 1, stdout "STDOUT-MARKER" and
stderr "boom", the report is "Error (return code 1):\nboom" and does not
contain the captured stdout. -/
theorem c2_python_failure_counterexample :
    execute_python_render ⟨1, "STDOUT-MARKER", "boom"⟩ = "Error (return code 1):\nboom"
    ∧ ¬ strHasSub (execute_python_render ⟨1, "STDOUT-MARKER", "boom"⟩) "STDOUT-MARKER" := by
  exact ⟨by decide, by decide⟩

/-- C2 (amended): a command run reports stdout directly when the exit code
is zero and stdout has non-whitespace content, the no-output marker when
the exit code is zero and stdout is empty or whitespace-only, and on
failure a message carrying the exit code and both captured streams; a
python run reports stdout directly when the return code is zero and stdout
is non-empty, the no-output marker when it is zero and stdout is empty,
and on failure a message carrying the return code and the captured stderr
only — the captured stdout is omitted. -/
theorem c2_render_amended (r : ExecutionResult) :
    (r.returncode = 0 → stripTruthy r.stdout = true → execute_command_render r = r.stdout)
    ∧ (r.returncode = 0 → stripTruthy r.stdout = false →
        execute_command_render r = "Command executed (no output).")
    ∧ (r.returncode = 0 → r.stdout ≠ "" → execute_python_render r = r.stdout)
    ∧ (r.returncode = 0 → r.stdout = "" →
        execute_python_render r = "Code executed successfully (no output)")
    ∧ (r.returncode ≠ 0 →
        strHasSub (execute_command_render r) (toString r.returncode)
        ∧ strHasSub (execute_command_render r) r.stdout
        ∧ strHasSub (execute_command_render r) r.stderr
        ∧ execute_python_render r
            = "Error (return code " ++ toString r.returncode ++ "):\n" ++ r.stderr
        ∧ strHasSub (execute_python_render r) r.stderr) := by
  refine ⟨?_, ?_, ?_, ?_, ?_⟩
  · intro h1 h2; simp [execute_command_render, h1, h2]
  · intro h1 h2; simp [execute_command_render, h1, h2]
  · intro h1 h2; simp [execute_python_render, h1, h2]
  · intro h1 h2; simp [execute_python_render, h1, h2]
  · intro h
    have hc : execute_command_render r
        = "Command failed (exit code " ++ toString r.returncode ++ ").\nSTDOUT:\n"
            ++ r.stdout ++ "\nSTDERR:\n" ++ r.stderr := by
      simp [execute_command_render, h]
    have hp : execute_python_render r
        = "Error (return code " ++ toString r.returncode ++ "):\n" ++ r.stderr := by
      simp [execute_python_render, h]
    refine ⟨?_, ?_, ?_, hp, ?_⟩
    · exact strHasSub_of_parts _ "Command failed (exit code " (toString r.returncode)
        (").\nSTDOUT:\n" ++ r.stdout ++ "\nSTDERR:\n" ++ r.stderr)
        (by rw [hc]; simp [String.append_assoc])
    · exact strHasSub_of_parts _
        ("Command failed (exit code " ++ toString r.returncode ++ ").\nSTDOUT:\n")
        r.stdout ("\nSTDERR:\n" ++ r.stderr)
        (by rw [hc]; simp [String.append_assoc])
    · exact strHasSub_of_parts _
        ("Command failed (exit code " ++ toString r.returncode ++ ").\nSTDOUT:\n"
          ++ r.stdout ++ "\nSTDERR:\n")
        r.stderr ""
        (by rw [hc]; simp [String.append_assoc])
    · exact strHasSub_of_parts _
        ("Error (return code " ++ toString r.returncode ++ "):\n") r.stderr ""
        (by rw [hp]; simp [String.append_assoc])

/-- Witness for `c2_render_amended` at the failed execution
⟨3, "OUT", "ERR"⟩. -/
theorem c2_render_amended_witness :
    ((⟨3, "OUT", "ERR"⟩ : ExecutionResult).returncode ≠ 0)
    ∧ strHasSub (execute_command_render ⟨3, "OUT", "ERR"⟩) "OUT"
    ∧ execute_python_render ⟨3, "OUT", "ERR"⟩ = "Error (return code 3):\nERR" := by
  refine ⟨by decide, ?_, ?_⟩
  · exact ((c2_render_amended ⟨3, "OUT", "ERR"⟩).2.2.2.2 (by decide)).2.1
  · exact ((c2_render_amended ⟨3, "OUT", "ERR"⟩).2.2.2.2 (by decide)).2.2.2.1

/-- C4: saving under the same name twice leaves exactly one entry under
that name, and that entry holds exactly the prompt and scripts of the
second save (full replacement, not a merge). -/
theorem c4_second_save_replaces (ts : List (String × TaskData)) (n p1 p2 : String)
    (s1 s2 : Option (List Script)) (hnd : (ts.map Prod.fst).Nodup) :
    (save_nash_task n p2 s2 (save_nash_task n p1 s1 (StoreFile.valid ts)).2).2
      = StoreFile.valid (updateTasks (updateTasks ts n (mkTaskData p1 s1)) n (mkTaskData p2 s2))
    ∧ lookupTask (updateTasks (updateTasks ts n (mkTaskData p1 s1)) n (mkTaskData p2 s2)) n
        = some (mkTaskData p2 s2)
    ∧ ((updateTasks (updateTasks ts n (mkTaskData p1 s1)) n (mkTaskData p2 s2)).map Prod.fst).count n
        = 1 := by
  refine ⟨rfl, lookupTask_updateTasks _ _ _, ?_⟩
  exact count_keys_updateTasks _ n _ (nodup_keys_updateTasks ts n _ hnd)

/-- Witness for `c4_second_save_replaces` on a store holding one other
task. -/
theorem c4_second_save_replaces_witness :
    (([("other", mkTaskData "q" none)].map Prod.fst).Nodup)
    ∧ lookupTask
        (updateTasks (updateTasks [("other", mkTaskData "q" none)] "t" (mkTaskData "p1" none)) "t"
          (mkTaskData "p2" none)) "t"
        = some (mkTaskData "p2" none) := by
  refine ⟨by decide, ?_⟩
  exact (c4_second_save_replaces [("other", mkTaskData "q" none)] "t" "p1" "p2" none none
    (by decide)).2.1

/-- C9: after a successful delete of task `n`, `run_nash_task n` and
`execute_task_script` on `n` each report that the task is not found, and a
second delete reports not-found as well instead of raising. -/
theorem c9_delete_then_not_found (ts : List (String × TaskData)) (n : String) (td : TaskData)
    (h : lookupTask ts n = some td) :
    (delete_nash_task n (StoreFile.valid ts)).1 = "Task '" ++ n ++ "' deleted successfully."
    ∧ run_nash_task n (delete_nash_task n (StoreFile.valid ts)).2
        = "Task '" ++ n ++ "' not found. Use list_nash_tasks to see available tasks."
    ∧ (∀ (R : Runners) (sn : String) (args : Option (List PyVal)),
        execute_task_script R n sn args (delete_nash_task n (StoreFile.valid ts)).2
          = "Task '" ++ n ++ "' not found. Use list_nash_tasks to see available tasks.")
    ∧ (delete_nash_task n (delete_nash_task n (StoreFile.valid ts)).2).1
        = "Task '" ++ n ++ "' not found. Use list_nash_tasks() to see available tasks." := by
  have hh := hasTask_of_lookupTask ts n td h
  have hst : (delete_nash_task n (StoreFile.valid ts)).2 = StoreFile.valid (removeTask ts n) := by
    simp [delete_nash_task, hh]
  refine ⟨?_, ?_, ?_, ?_⟩
  · simp [delete_nash_task, hh]
  · rw [hst]; simp [run_nash_task, lookupTask_removeTask]
  · intro R sn args; rw [hst]; simp [execute_task_script, lookupTask_removeTask]
  · rw [hst]; simp [delete_nash_task, hasTask_removeTask]

/-- Witness for `c9_delete_then_not_found` on a one-task store. -/
theorem c9_delete_then_not_found_witness :
    lookupTask [("t", mkTaskData "p" none)] "t" = some (mkTaskData "p" none)
    ∧ (delete_nash_task "t" (StoreFile.valid [("t", mkTaskData "p" none)])).1
        = "Task 't' deleted successfully."
    ∧ (delete_nash_task "t" (delete_nash_task "t"
          (StoreFile.valid [("t", mkTaskData "p" none)])).2).1
        = "Task 't' not found. Use list_nash_tasks() to see available tasks." := by
  refine ⟨by decide, ?_, ?_⟩
  · exact (c9_delete_then_not_found [("t", mkTaskData "p" none)] "t" (mkTaskData "p" none)
      (by decide)).1
  · exact (c9_delete_then_not_found [("t", mkTaskData "p" none)] "t" (mkTaskData "p" none)
      (by decide)).2.2.2

/-- C5: for a command script with non-empty stored code, a non-empty
argument list is stringified element-wise, joined by single spaces, and
appended after one separating space to the stored command; an empty or
omitted argument list dispatches the stored command exactly. -/
theorem c5_command_argument_concatenation (R : Runners) (ts : List (String × TaskData))
    (tn sn : String) (td : TaskData) (ss : List Script) (sc : Script) (t c : String)
    (hl : lookupTask ts tn = some td) (hs : td.scripts = some ss)
    (hf : findScript ss sn = some sc)
    (ht : sc.type = some t) (htl : pyLower t = "command")
    (hc : sc.code = some c) (hcne : c ≠ "") :
    (∀ a : List PyVal, a ≠ [] →
        execute_task_script R tn sn (some a) (StoreFile.valid ts)
          = R.execute_command (c ++ " " ++ String.intercalate " " (a.map pyStr)))
    ∧ execute_task_script R tn sn none (StoreFile.valid ts) = R.execute_command c
    ∧ execute_task_script R tn sn (some []) (StoreFile.valid ts) = R.execute_command c := by
  refine ⟨?_, ?_, ?_⟩
  · intro a ha
    rw [execute_task_script_found R tn sn (some a) ts td ss sc hl hs hf,
        dispatchScript_command R sn sc (some a) t c ht htl hc hcne]
    cases a with
    | nil => exact absurd rfl ha
    | cons x xs => rfl
  · rw [execute_task_script_found R tn sn none ts td ss sc hl hs hf,
        dispatchScript_command R sn sc none t c ht htl hc hcne]
    rfl
  · rw [execute_task_script_found R tn sn (some []) ts td ss sc hl hs hf,
        dispatchScript_command R sn sc (some []) t c ht htl hc hcne]
    rfl

/-- Witness for `c5_command_argument_concatenation`: the spec's own
example, code "echo hi" with args ["a", "b"], dispatches exactly
"echo hi a b". -/
theorem c5_command_argument_concatenation_witness :
    lookupTask [("t", mkTaskData "p" (some [⟨some "s", some "command", some "echo hi", none⟩]))] "t"
        = some (mkTaskData "p" (some [⟨some "s", some "command", some "echo hi", none⟩]))
    ∧ execute_task_script ⟨fun s => "PY " ++ s, fun s => "SH " ++ s⟩ "t" "s"
        (some [PyVal.str "a", PyVal.str "b"])
        (StoreFile.valid
          [("t", mkTaskData "p" (some [⟨some "s", some "command", some "echo hi", none⟩]))])
        = "SH " ++ "echo hi a b" := by
  refine ⟨by decide, ?_⟩
  have h := (c5_command_argument_concatenation ⟨fun s => "PY " ++ s, fun s => "SH " ++ s⟩
    [("t", mkTaskData "p" (some [⟨some "s", some "command", some "echo hi", none⟩]))]
    "t" "s" (mkTaskData "p" (some [⟨some "s", some "command", some "echo hi", none⟩]))
    [⟨some "s", some "command", some "echo hi", none⟩]
    ⟨some "s", some "command", some "echo hi", none⟩ "command" "echo hi"
    (by decide) (by decide) (by decide) (by decide) (by decide) (by decide) (by decide)).1
    [PyVal.str "a", PyVal.str "b"] (by decide)
  rw [h]
  decide

/-- C6: for a python script with non-empty stored code `c` and argument
list `a`, the source handed to the code runner is exactly the literal
assignment of `a` to the fixed variable `task_args`, a blank line, then
`c` unmodified. -/
theorem c6_python_task_args_binding (R : Runners) (ts : List (String × TaskData))
    (tn sn : String) (td : TaskData) (ss : List Script) (sc : Script) (t c : String)
    (hl : lookupTask ts tn = some td) (hs : td.scripts = some ss)
    (hf : findScript ss sn = some sc)
    (ht : sc.type = some t) (htl : pyLower t = "python")
    (hc : sc.code = some c) (hcne : c ≠ "") :
    ∀ a : List PyVal,
      execute_task_script R tn sn (some a) (StoreFile.valid ts)
        = R.execute_python ("task_args = " ++ pyReprList a ++ "\n\n" ++ c) := by
  intro a
  rw [execute_task_script_found R tn sn (some a) ts td ss sc hl hs hf,
      dispatchScript_python R sn sc (some a) t c ht htl hc hcne]
  rfl

/-- Witness for `c6_python_task_args_binding`: args [1, "x"] are bound as
the literal python list [1, 'x']. -/
theorem c6_python_task_args_binding_witness :
    lookupTask [("t", mkTaskData "p" (some [⟨some "s", some "python", some "print(task_args)", none⟩]))] "t"
        = some (mkTaskData "p" (some [⟨some "s", some "python", some "print(task_args)", none⟩]))
    ∧ execute_task_script ⟨fun s => "PY " ++ s, fun s => "SH " ++ s⟩ "t" "s"
        (some [PyVal.int 1, PyVal.str "x"])
        (StoreFile.valid
          [("t", mkTaskData "p" (some [⟨some "s", some "python", some "print(task_args)", none⟩]))])
        = "PY " ++ "task_args = [1, 'x']\n\nprint(task_args)" := by
  refine ⟨by decide, ?_⟩
  have h := c6_python_task_args_binding ⟨fun s => "PY " ++ s, fun s => "SH " ++ s⟩
    [("t", mkTaskData "p" (some [⟨some "s", some "python", some "print(task_args)", none⟩]))]
    "t" "s" (mkTaskData "p" (some [⟨some "s", some "python", some "print(task_args)", none⟩]))
    [⟨some "s", some "python", some "print(task_args)", none⟩]
    ⟨some "s", some "python", some "print(task_args)", none⟩ "python" "print(task_args)"
    (by decide) (by decide) (by decide) (by decide) (by decide) (by decide) (by decide)
    [PyVal.int 1, PyVal.str "x"]
  rw [h]
  decide

/-- C7: a stored script whose lower-cased type is neither "python" nor
"command" is not dispatched to any runner (the result is the same fixed
message for every runner pair), and the message names the unsupported type
and both supported types. -/
theorem c7_unsupported_script_type (ts : List (String × TaskData))
    (tn sn : String) (td : TaskData) (ss : List Script) (sc : Script) (t c : String)
    (hl : lookupTask ts tn = some td) (hs : td.scripts = some ss)
    (hf : findScript ss sn = some sc)
    (ht : sc.type = some t) (h1 : pyLower t ≠ "python") (h2 : pyLower t ≠ "command")
    (hc : sc.code = some c) (hcne : c ≠ "") :
    ∀ (R : Runners) (args : Option (List PyVal)),
      execute_task_script R tn sn args (StoreFile.valid ts)
          = "Unknown script type '" ++ pyLower t ++ "'. Supported types are 'python' and 'command'."
      ∧ strHasSub (execute_task_script R tn sn args (StoreFile.valid ts)) (pyLower t)
      ∧ strHasSub (execute_task_script R tn sn args (StoreFile.valid ts)) "python"
      ∧ strHasSub (execute_task_script R tn sn args (StoreFile.valid ts)) "command" := by
  intro R args
  have he : execute_task_script R tn sn args (StoreFile.valid ts)
      = "Unknown script type '" ++ pyLower t ++ "'. Supported types are 'python' and 'command'." := by
    rw [execute_task_script_found R tn sn args ts td ss sc hl hs hf]
    simp [dispatchScript, ht, hc, hcne, h1, h2]
  refine ⟨he, ?_, ?_, ?_⟩
  · exact strHasSub_of_parts _ "Unknown script type '" (pyLower t)
      "'. Supported types are 'python' and 'command'." (by rw [he]; simp [String.append_assoc])
  · refine strHasSub_trans _ "'. Supported types are 'python' and 'command'." "python"
      ?_ (by decide)
    exact strHasSub_of_parts _ ("Unknown script type '" ++ pyLower t)
      "'. Supported types are 'python' and 'command'." ""
      (by rw [he]; simp [String.append_assoc])
  · refine strHasSub_trans _ "'. Supported types are 'python' and 'command'." "command"
      ?_ (by decide)
    exact strHasSub_of_parts _ ("Unknown script type '" ++ pyLower t)
      "'. Supported types are 'python' and 'command'." ""
      (by rw [he]; simp [String.append_assoc])

/-- Witness for `c7_unsupported_script_type`: the spec's example type
"ruby" is rejected with the fixed message. -/
theorem c7_unsupported_script_type_witness :
    pyLower "ruby" ≠ "python"
    ∧ pyLower "ruby" ≠ "command"
    ∧ execute_task_script ⟨fun s => "PY " ++ s, fun s => "SH " ++ s⟩ "t" "s" none
        (StoreFile.valid [("t", mkTaskData "p" (some [⟨some "s", some "ruby", some "puts 1", none⟩]))])
        = "Unknown script type '" ++ pyLower "ruby" ++ "'. Supported types are 'python' and 'command'." := by
  refine ⟨by decide, by decide, ?_⟩
  exact (c7_unsupported_script_type
    [("t", mkTaskData "p" (some [⟨some "s", some "ruby", some "puts 1", none⟩]))]
    "t" "s" (mkTaskData "p" (some [⟨some "s", some "ruby", some "puts 1", none⟩]))
    [⟨some "s", some "ruby", some "puts 1", none⟩]
    ⟨some "s", some "ruby", some "puts 1", none⟩ "ruby" "puts 1"
    (by decide) (by decide) (by decide) (by decide) (by decide) (by decide) (by decide)
    (by decide) ⟨fun s => "PY " ++ s, fun s => "SH " ++ s⟩ none).1

/-- C8: script lookup inside a task takes the first script, in list order,
whose stored name is exactly the requested (case-sensitive) name; when
several scripts share that name, the first one is the one dispatched. -/
theorem c8_first_matching_script (R : Runners) (ts : List (String × TaskData))
    (tn sn : String) (td : TaskData) (ss1 ss2 : List Script) (sc : Script)
    (args : Option (List PyVal))
    (hl : lookupTask ts tn = some td)
    (hs : td.scripts = some (ss1 ++ sc :: ss2))
    (hfirst : ∀ s ∈ ss1, s.name ≠ some sn)
    (hname : sc.name = some sn) :
    findScript (ss1 ++ sc :: ss2) sn = some sc
    ∧ execute_task_script R tn sn args (StoreFile.valid ts) = dispatchScript R sn sc args := by
  have hf : findScript (ss1 ++ sc :: ss2) sn = some sc := by
    have hnone : ss1.find? (fun s => s.name == some sn) = none := by
      rw [List.find?_eq_none]
      intro x hx
      simpa using hfirst x hx
    simp [findScript, List.find?_append, hnone, List.find?, hname]
  exact ⟨hf, execute_task_script_found R tn sn args ts td _ sc hl hs hf⟩

/-- Witness for `c8_first_matching_script`: two scripts named "dup"; the
first one (a command script) is the one dispatched. -/
theorem c8_first_matching_script_witness :
    (⟨some "dup", some "command", some "echo first", none⟩ : Script).name = some "dup"
    ∧ execute_task_script ⟨fun s => "PY " ++ s, fun s => "SH " ++ s⟩ "t" "dup" none
        (StoreFile.valid [("t", mkTaskData "p"
          (some [⟨some "dup", some "command", some "echo first", none⟩,
                 ⟨some "dup", some "command", some "echo second", none⟩]))])
        = dispatchScript ⟨fun s => "PY " ++ s, fun s => "SH " ++ s⟩ "dup"
            ⟨some "dup", some "command", some "echo first", none⟩ none := by
  refine ⟨by decide, ?_⟩
  exact (c8_first_matching_script ⟨fun s => "PY " ++ s, fun s => "SH " ++ s⟩
    [("t", mkTaskData "p"
      (some [⟨some "dup", some "command", some "echo first", none⟩,
             ⟨some "dup", some "command", some "echo second", none⟩]))]
    "t" "dup"
    (mkTaskData "p"
      (some [⟨some "dup", some "command", some "echo first", none⟩,
             ⟨some "dup", some "command", some "echo second", none⟩]))
    [] [⟨some "dup", some "command", some "echo second", none⟩]
    ⟨some "dup", some "command", some "echo first", none⟩ none
    (by decide) (by decide) (by simp) (by decide)).2

/-- C10: the stored type is lower-cased before the dispatch comparison, so
a type differing from "python" or "command" only in letter case is
dispatched to the corresponding runner instead of being rejected. -/
theorem c10_type_match_case_insensitive (R : Runners) (ts : List (String × TaskData))
    (tn sn : String) (td : TaskData) (ss : List Script) (sc : Script) (t c : String)
    (args : Option (List PyVal))
    (hl : lookupTask ts tn = some td) (hs : td.scripts = some ss)
    (hf : findScript ss sn = some sc)
    (ht : sc.type = some t) (hc : sc.code = some c) (hcne : c ≠ "") :
    (pyLower t = "python" →
      execute_task_script R tn sn args (StoreFile.valid ts)
        = R.execute_python ("task_args = " ++ pyReprList (args.getD []) ++ "\n\n" ++ c))
    ∧ (pyLower t = "command" →
      execute_task_script R tn sn args (StoreFile.valid ts)
        = R.execute_command
            (if (args.getD []).isEmpty then c
             else c ++ " " ++ String.intercalate " " ((args.getD []).map pyStr))) := by
  constructor
  · intro htl
    rw [execute_task_script_found R tn sn args ts td ss sc hl hs hf,
        dispatchScript_python R sn sc args t c ht htl hc hcne]
  · intro htl
    rw [execute_task_script_found R tn sn args ts td ss sc hl hs hf,
        dispatchScript_command R sn sc args t c ht htl hc hcne]

/-- Witness for `c10_type_match_case_insensitive`: a script stored with
type "Python" runs on the code runner. -/
theorem c10_type_match_case_insensitive_witness :
    pyLower "Python" = "python"
    ∧ execute_task_script ⟨fun s => "PY " ++ s, fun s => "SH " ++ s⟩ "t" "s" none
        (StoreFile.valid
          [("t", mkTaskData "p" (some [⟨some "s", some "Python", some "print(task_args)", none⟩]))])
        = "PY " ++ ("task_args = " ++ pyReprList ((none : Option (List PyVal)).getD [])
            ++ "\n\n" ++ "print(task_args)") := by
  refine ⟨by decide, ?_⟩
  exact (c10_type_match_case_insensitive ⟨fun s => "PY " ++ s, fun s => "SH " ++ s⟩
    [("t", mkTaskData "p" (some [⟨some "s", some "Python", some "print(task_args)", none⟩]))]
    "t" "s" (mkTaskData "p" (some [⟨some "s", some "Python", some "print(task_args)", none⟩]))
    [⟨some "s", some "Python", some "print(task_args)", none⟩]
    ⟨some "s", some "Python", some "print(task_args)", none⟩ "Python" "print(task_args)" none
    (by decide) (by decide) (by decide) (by decide) (by decide) (by decide)).1 (by decide)

/-
Ordered occurrence of all stored script fields in the rendered
`view_task_details` blocks.
-/

theorem chain_scriptDetailBlocks (tn : String) (ss : List Script) :
    ∀ i : Nat, (∀ sc ∈ ss, wellFormedScript sc = true) →
      containsInOrder (renderBlocks (scriptDetailBlock tn) i ss) (scriptsFields ss) := by
  induction ss with
  | nil =>
    intro i _
    simp [renderBlocks, scriptsFields, containsInOrder]
  | cons sc rest ih =>
    intro i hwf
    have hsc := hwf sc (List.mem_cons_self sc rest)
    rw [wellFormedScript] at hsc
    simp only [Bool.and_eq_true, Option.isSome_iff_exists] at hsc
    obtain ⟨⟨⟨⟨nm, hnm⟩, ⟨ty, hty⟩⟩, ⟨cd, hcd⟩⟩, ⟨ds, hds⟩⟩ := hsc
    have hrest : ∀ sc' ∈ rest, wellFormedScript sc' = true :=
      fun sc' h' => hwf sc' (List.mem_cons_of_mem _ h')
    have hfields : scriptsFields (sc :: rest) = nm :: ty :: ds :: cd :: scriptsFields rest := by
      simp [scriptsFields, scriptFields, hnm, hty, hds, hcd]
    have hblock : scriptDetailBlock tn i sc
        = "\n" ++ toString i ++ ". " ++ nm ++ " (" ++ ty ++ ")\n"
          ++ "   Description: " ++ ds ++ "\n"
          ++ "   Code:\n```" ++ ty ++ "\n" ++ cd ++ "\n```\n"
          ++ "   Execute with: execute_task_script('" ++ tn ++ "', '" ++ nm ++ "', args=[])\n" := by
      simp only [scriptDetailBlock, hnm, hty, hds, hcd, Option.getD_some]
    show containsInOrder (scriptDetailBlock tn i sc ++ renderBlocks (scriptDetailBlock tn) (i + 1) rest)
      (scriptsFields (sc :: rest))
    rw [hfields, hblock]
    refine ⟨"\n" ++ toString i ++ ". ",
      " (" ++ ty ++ ")\n" ++ "   Description: " ++ ds ++ "\n"
        ++ "   Code:\n```" ++ ty ++ "\n" ++ cd ++ "\n```\n"
        ++ "   Execute with: execute_task_script('" ++ tn ++ "', '" ++ nm ++ "', args=[])\n"
        ++ renderBlocks (scriptDetailBlock tn) (i + 1) rest,
      by simp [String.append_assoc], ?_⟩
    refine ⟨" (",
      ")\n" ++ "   Description: " ++ ds ++ "\n"
        ++ "   Code:\n```" ++ ty ++ "\n" ++ cd ++ "\n```\n"
        ++ "   Execute with: execute_task_script('" ++ tn ++ "', '" ++ nm ++ "', args=[])\n"
        ++ renderBlocks (scriptDetailBlock tn) (i + 1) rest,
      by simp [String.append_assoc], ?_⟩
    refine ⟨")\n" ++ "   Description: ",
      "\n" ++ "   Code:\n```" ++ ty ++ "\n" ++ cd ++ "\n```\n"
        ++ "   Execute with: execute_task_script('" ++ tn ++ "', '" ++ nm ++ "', args=[])\n"
        ++ renderBlocks (scriptDetailBlock tn) (i + 1) rest,
      by simp [String.append_assoc], ?_⟩
    refine ⟨"\n" ++ "   Code:\n```" ++ ty ++ "\n",
      ("\n```\n   Execute with: execute_task_script('"
          ++ (tn ++ ("', '" ++ (nm ++ "', args=[])\n"))))
        ++ renderBlocks (scriptDetailBlock tn) (i + 1) rest,
      by simp [String.append_assoc], ?_⟩
    exact containsInOrder_append_left _ _ _ (ih (i + 1) hrest)

/-- C3: round trip — after `save_nash_task n p s` on any parsed store,
`view_task_details n` reports a text in which the prompt `p` appears
verbatim, followed by, for each script of `s` in list order, that script's
stored name, type, description and code, unchanged and in order. -/
theorem c3_save_view_round_trip (ts : List (String × TaskData)) (n p : String)
    (s : List Script) (hn : n ≠ "") (hp : p ≠ "")
    (hwf : ∀ sc ∈ s, wellFormedScript sc = true) :
    containsInOrder (view_task_details n (save_nash_task n p (some s) (StoreFile.valid ts)).2)
      (p :: scriptsFields s) := by
  have hst : (save_nash_task n p (some s) (StoreFile.valid ts)).2
      = StoreFile.valid (updateTasks ts n (mkTaskData p (some s))) := rfl
  rw [hst]
  have hl := lookupTask_updateTasks ts n (mkTaskData p (some s))
  cases s with
  | nil =>
    have hview : view_task_details n (StoreFile.valid (updateTasks ts n (mkTaskData p (some []))))
        = "TASK: " ++ n ++ "\n\nPROMPT:\n" ++ p ++ "\n"
            ++ "\nThis task has no executable scripts." := by
      rw [view_task_details, hl]
      simp [mkTaskData]
    rw [hview]
    exact ⟨"TASK: " ++ n ++ "\n\nPROMPT:\n",
      "\n" ++ "\nThis task has no executable scripts.",
      by simp [String.append_assoc], trivial⟩
  | cons sc0 rest =>
    have hview : view_task_details n
          (StoreFile.valid (updateTasks ts n (mkTaskData p (some (sc0 :: rest)))))
        = "TASK: " ++ n ++ "\n\nPROMPT:\n" ++ p ++ "\n"
            ++ ("\nSCRIPTS:\n" ++ renderBlocks (scriptDetailBlock n) 1 (sc0 :: rest)) := by
      rw [view_task_details, hl]
      simp [mkTaskData]
    rw [hview]
    refine ⟨"TASK: " ++ n ++ "\n\nPROMPT:\n",
      "\n" ++ ("\nSCRIPTS:\n" ++ renderBlocks (scriptDetailBlock n) 1 (sc0 :: rest)),
      by simp [String.append_assoc], ?_⟩
    apply containsInOrder_append_left
    apply containsInOrder_append_left
    exact chain_scriptDetailBlocks n (sc0 :: rest) 1 hwf

/-- Witness for `c3_save_view_round_trip` on a one-script save over the
empty store. -/
theorem c3_save_view_round_trip_witness :
    ("t" : String) ≠ ""
    ∧ ("hello" : String) ≠ ""
    ∧ (∀ sc ∈ [(⟨some "s1", some "python", some "print(1)", some "d1"⟩ : Script)],
        wellFormedScript sc = true)
    ∧ containsInOrder
        (view_task_details "t"
          (save_nash_task "t" "hello"
            (some [⟨some "s1", some "python", some "print(1)", some "d1"⟩])
            (StoreFile.valid [])).2)
        ("hello" :: scriptsFields [⟨some "s1", some "python", some "print(1)", some "d1"⟩]) := by
  refine ⟨by decide, by decide, by decide, ?_⟩
  exact c3_save_view_round_trip [] "t" "hello"
    [⟨some "s1", some "python", some "print(1)", some "d1"⟩]
    (by decide) (by decide) (by decide)
